import Mathlib

/-!
Shallow embedding of the transactional core of the service:
the unit-of-work scope-exit algorithm (`UoW.__aexit__` in
`src/infrastructure/uow.py`), the connection-pool adapter
(`SQLModelAdapter` in `src/infrastructure/adapters/sql_model_adapter.py`)
and the startup retry loop (`lifespan_context` in `src/bootstrap.py`).

Python exceptions are modelled by a record carrying the two class-level
facts the code branches on: whether the object is an instance of
`Exception` (an `except Exception` clause catches it; `asyncio.CancelledError`
is a `BaseException` but not an `Exception` on modern Python, so it is not
caught), and whether the string form of its class contains
"asyncio.CancelledError" (the stringly-typed cancellation test in
`UoW.__aexit__`). An id field keeps distinct errors distinct.
-/

namespace UowSpec

/-- A Python exception value, abstracted to the facts the code inspects. -/
structure Exc where
  isException : Bool
  cancelNamed : Bool
  id : Nat
deriving DecidableEq, Repr

/-- The real `asyncio.CancelledError`: a `BaseException` that is not an
`Exception`, whose class string contains "asyncio.CancelledError". -/
def cancelledError : Exc := ⟨false, true, 0⟩

/-- The `AttributeError` Python raises when `self.__sql_model_session` is
read on an instance whose `__aenter__` never ran. -/
def attributeError : Exc := ⟨true, false, 1⟩

/-- An ordinary database error: an `Exception` whose class string does not
contain "asyncio.CancelledError". -/
def dbError (n : Nat) : Exc := ⟨true, false, 100 + n⟩

/-- Whether an exception escapes an `except Exception` clause: true for
`BaseException`s such as `asyncio.CancelledError` that are not `Exception`s. -/
def Exc.isBaseOnly (e : Exc) : Bool := !e.isException

/-- Behaviour of one `AsyncSession` during `__aexit__`: what each of the
three awaited operations raises (`none` = the operation succeeds). Each
operation is called at most once per exit, so a single outcome suffices. -/
structure Session where
  rollbackRes : Option Exc
  commitRes : Option Exc
  closeRes : Option Exc
deriving DecidableEq, Repr

/-- The state of the private session attribute when `__aexit__` runs:
never written (`__aenter__` never ran, so reading it raises
`AttributeError`), written with a falsy value (never produced by this
code, but the truthiness guard distinguishes it), or a live session
(`AsyncSession` objects are truthy). -/
inductive SessAttr where
  | unset
  | nullSession
  | active (s : Session)
deriving DecidableEq, Repr

/-- Observable outcome of one `__aexit__` call: how many times each session
operation was invoked, whether the commit call succeeded, and the exception
(if any) propagating out of `__aexit__` itself. -/
structure ExitResult where
  rollbackCalls : Nat
  commitCalls : Nat
  commitOk : Bool
  closeCalls : Nat
  raised : Option Exc
deriving DecidableEq, Repr

/-- Body of the outer `try` in `UoW.__aexit__`: roll back when the caller
is exiting with an upstream error; otherwise commit, and on a commit
failure caught by the inner `except Exception` roll back and re-raise the
commit error (a rollback failure replaces it). Returns the exception
escaping the outer try body together with the rollback/commit call counts
and whether commit succeeded. -/
def tryBody (excIn : Option Exc) (s : Session) : Option Exc × Nat × Nat × Bool :=
  match excIn with
  | some _ => (s.rollbackRes, 1, 0, false)
  | none =>
    match s.commitRes with
    | none => (none, 0, 1, true)
    | some e =>
      if e.isException then
        match s.rollbackRes with
        | none => (some e, 1, 1, false)
        | some e2 => (some e2, 1, 1, false)
      else
        (some e, 0, 1, false)

/-- The outer `except Exception as e` handler: only `Exception` instances
are caught; a caught exception whose class string contains
"asyncio.CancelledError" is logged and swallowed, any other caught
exception is re-raised. -/
def outerHandle (bodyExc : Option Exc) : Option Exc :=
  match bodyExc with
  | none => none
  | some e =>
    if e.isException then
      if e.cancelNamed then none else some e
    else
      some e

/-- The `finally` block: `close()` is always attempted; a close failure
that is an `Exception` is caught and only logged, while a `BaseException`
raised by close propagates out of the `finally`, replacing any pending
exception. -/
def finallyClose (afterExc : Option Exc) (s : Session) : Option Exc :=
  match s.closeRes with
  | none => afterExc
  | some e3 => if e3.isException then afterExc else some e3

/-- `UoW.__aexit__`, as a function of the session-attribute state and the
upstream exception (`exc_type`/`exc_val`) the caller is exiting with. -/
def aexit (attr : SessAttr) (excIn : Option Exc) : ExitResult :=
  match attr with
  | .unset => ⟨0, 0, false, 0, some attributeError⟩
  | .nullSession => ⟨0, 0, false, 0, none⟩
  | .active s =>
    match tryBody excIn s with
    | (bodyExc, rb, cm, cok) =>
      ⟨rb, cm, cok, 1, finallyClose (outerHandle bodyExc) s⟩

/-- What the caller of `async with` observes after exit: an exception
raised by `__aexit__` replaces the body's exception; since `__aexit__`
always returns `None` (falsy), a body exception is never suppressed by a
normal return. -/
def observed (excIn : Option Exc) (r : ExitResult) : Option Exc :=
  match r.raised with
  | some e => some e
  | none => excIn

/-- Number of transaction decisions taken during one exit: a successful
commit, plus each rollback call. -/
def decisions (r : ExitResult) : Nat :=
  (if r.commitOk then 1 else 0) + r.rollbackCalls

/-- Whether one of the session operations the exit algorithm actually
executes before the `finally` block (the rollback on the upstream-error
path, the commit, or the rollback inside the commit-failure handler)
raises a cancellation-class failure, i.e. a `BaseException` that is not
an `Exception`. -/
def bodyCancelled (excIn : Option Exc) (s : Session) : Bool :=
  match excIn with
  | some _ =>
    match s.rollbackRes with
    | some e => e.isBaseOnly
    | none => false
  | none =>
    match s.commitRes with
    | none => false
    | some e =>
      if e.isException then
        match s.rollbackRes with
        | some e2 => e2.isBaseOnly
        | none => false
      else
        e.isBaseOnly

/-- Whether the `close()` call in the `finally` block raises a
cancellation-class failure. -/
def closeCancelled (s : Session) : Bool :=
  match s.closeRes with
  | some e3 => e3.isBaseOnly
  | none => false

/-- Whether any operation executed during the exit raises a
cancellation-class failure. -/
def cancellationEncountered (excIn : Option Exc) (s : Session) : Bool :=
  bodyCancelled excIn s || closeCancelled s

end UowSpec

namespace AdapterSpec

/-- The engine handle held by `SQLModelAdapter.__engine` once
`create_async_engine` has run. The `verified` field is instrumentation
recording whether the liveness check (`SELECT 1`) on this engine ever
succeeded; the source keeps no such flag, and nothing in the model's
control flow reads it. -/
structure Engine where
  verified : Bool
deriving DecidableEq, Repr

/-- The adapter's mutable state: `__engine` is `None` or a live handle. -/
structure AdapterState where
  engine : Option Engine
deriving DecidableEq, Repr

/-- The adapter state right after `__init__`: no engine. -/
def initState : AdapterState := ⟨none⟩

/-- Errors the adapter surfaces: the exception propagating out of the
failed `SELECT 1` round trip, and the `RuntimeError("Engine not
initialized. Call create_engine() first")` from `get_session`. -/
inductive AdapterErr where
  | connectivity
  | engineNotInitialized
deriving DecidableEq, Repr

/-- Observable outcome of one `create_engine` call: the state afterwards,
the exception raised (if any), whether `create_async_engine` ran, and
whether the liveness query was attempted. -/
structure CreateResult where
  st : AdapterState
  raised : Option AdapterErr
  constructed : Bool
  checkRun : Bool
deriving DecidableEq, Repr

/-- `SQLModelAdapter.create_engine`, with `conn` the environment oracle for
whether the `SELECT 1` round trip succeeds. The source assigns
`self.__engine` before running the check and has no cleanup on failure, so
a failed check raises with the handle still set; when a handle already
exists the whole call is a no-op. -/
def create_engine (conn : Bool) (st : AdapterState) : CreateResult :=
  match st.engine with
  | some _ => ⟨st, none, false, false⟩
  | none =>
    if conn then
      ⟨⟨some ⟨true⟩⟩, none, true, true⟩
    else
      ⟨⟨some ⟨false⟩⟩, some .connectivity, true, true⟩

/-- `SQLModelAdapter.dispose_engine`: dispose the engine if present and
clear the handle; a no-op when no engine exists. Either way the handle is
`None` afterwards. -/
def dispose_engine (_st : AdapterState) : AdapterState := ⟨none⟩

/-- `SQLModelAdapter.get_session`: raise the not-initialized `RuntimeError`
when no engine handle is present, otherwise return a new `AsyncSession`
bound to the existing engine (identified here by the engine it wraps). -/
def get_session (st : AdapterState) : Except AdapterErr Engine :=
  match st.engine with
  | none => .error .engineNotInitialized
  | some e => .ok e

/-- The startup loop of `lifespan_context` in `src/bootstrap.py`:
`while not connected:` call `create_engine`; on any exception log it,
sleep a fixed 3 seconds and retry; stop at the first call that raises
nothing. `conns` is the finite prefix of the connectivity oracle the run
is observed under; `none` means the loop was still retrying when the
oracle ran out. On completion it returns the number of backoff sleeps
taken and the adapter state. -/
def startup (conns : List Bool) (st : AdapterState) : Option (Nat × AdapterState) :=
  match conns with
  | [] => none
  | c :: rest =>
    match create_engine c st with
    | ⟨st2, none, _, _⟩ => some (0, st2)
    | ⟨st2, some _, _, _⟩ =>
      match startup rest st2 with
      | none => none
      | some (n, stf) => some (n + 1, stf)

end AdapterSpec

namespace UowSpec

/-- The `raised` component of an exit on an active session is the pending
exception of the try/except phase filtered through the `finally` close. -/
theorem aexit_raised (s : Session) (excIn : Option Exc) :
    (aexit (.active s) excIn).raised =
      finallyClose (outerHandle (tryBody excIn s).1) s := by
  rcases h : tryBody excIn s with ⟨a, rb, cm, cok⟩
  simp [aexit, h]

/-- On an active session, close is called exactly once on every path. -/
theorem aexit_closeCalls (s : Session) (excIn : Option Exc) :
    (aexit (.active s) excIn).closeCalls = 1 := by
  rcases h : tryBody excIn s with ⟨a, rb, cm, cok⟩
  simp [aexit, h]

/-- A cancellation-class failure from an executed pre-close operation
survives the outer `except Exception` handler: the try/except phase ends
with a pending non-`Exception` failure. -/
theorem bodyCancelled_outerHandle (excIn : Option Exc) (s : Session)
    (h : bodyCancelled excIn s = true) :
    ∃ ec, outerHandle (tryBody excIn s).1 = some ec ∧ ec.isException = false := by
  obtain ⟨r, c, cl⟩ := s
  cases excIn with
  | some e0 =>
    cases r with
    | none => simp [bodyCancelled] at h
    | some e2 =>
      simp [bodyCancelled, Exc.isBaseOnly] at h
      exact ⟨e2, by simp [tryBody, outerHandle, h], h⟩
  | none =>
    cases c with
    | none => simp [bodyCancelled] at h
    | some e =>
      cases he : e.isException with
      | true =>
        cases r with
        | none => simp [bodyCancelled, he] at h
        | some e2 =>
          simp [bodyCancelled, Exc.isBaseOnly, he] at h
          exact ⟨e2, by simp [tryBody, outerHandle, he, h], h⟩
      | false =>
        exact ⟨e, by simp [tryBody, outerHandle, he], he⟩

/-- Claim C1, counterexample: when the commit call itself fails with the
cancellation signal (`asyncio.CancelledError`, not an `Exception`), the
inner `except Exception` handler does not run, so no rollback is issued
and the commit did not succeed either: zero transaction decisions occur,
not exactly one. -/
theorem C1_counterexample :
    decisions (aexit (.active ⟨none, some cancelledError, none⟩) none) = 0 ∧
    (aexit (.active ⟨none, some cancelledError, none⟩) none).rollbackCalls = 0 ∧
    (aexit (.active ⟨none, some cancelledError, none⟩) none).commitOk = false := by
  decide

/-- Claim C1 (amended): for every exit of an active unit of work, provided
the commit call does not itself fail with a cancellation-class
(non-`Exception`) failure, exactly one transaction decision (a successful
commit, or a rollback call) occurs; and close is attempted exactly once
unconditionally. -/
theorem C1_exit_decision (s : Session) (excIn : Option Exc)
    (h : ∀ e, s.commitRes = some e → e.isException = true) :
    decisions (aexit (.active s) excIn) = 1 ∧
      (aexit (.active s) excIn).closeCalls = 1 := by
  refine ⟨?_, aexit_closeCalls s excIn⟩
  obtain ⟨r, c, cl⟩ := s
  cases excIn with
  | some e0 => simp [aexit, tryBody, decisions]
  | none =>
    cases c with
    | none => simp [aexit, tryBody, decisions]
    | some e =>
      have he : e.isException = true := h e rfl
      cases r with
      | none => simp [aexit, tryBody, decisions, he]
      | some e2 => simp [aexit, tryBody, decisions, he]

/-- Claim C1, witness: a clean commit on the happy path takes exactly one
decision and one close. -/
theorem C1_exit_decision_witness :
    decisions (aexit (.active ⟨none, none, none⟩) none) = 1 ∧
      (aexit (.active ⟨none, none, none⟩) none).closeCalls = 1 :=
  C1_exit_decision ⟨none, none, none⟩ none (fun _ he => Option.noConfusion he)

/-- Claim C3, counterexample: the caller exits with upstream error
`dbError 0`, but the rollback itself fails with `dbError 1`; the rollback
error is re-raised by the outer handler, so the caller observes
`dbError 1`, not the original upstream error. -/
theorem C3_counterexample :
    observed (some (dbError 0))
        (aexit (.active ⟨some (dbError 1), none, none⟩) (some (dbError 0))) =
      some (dbError 1) ∧ dbError 1 ≠ dbError 0 := by
  decide

/-- Claim C3 (amended): on exit with an upstream error, the transaction is
rolled back, and provided the rollback succeeds and any close failure is
an ordinary `Exception` (not a cancellation), the caller observes the
original upstream error unchanged. -/
theorem C3_upstream_error_passthrough (e0 : Exc) (c cl : Option Exc)
    (hcl : ∀ e3, cl = some e3 → e3.isException = true) :
    (aexit (.active ⟨none, c, cl⟩) (some e0)).rollbackCalls = 1 ∧
      observed (some e0) (aexit (.active ⟨none, c, cl⟩) (some e0)) = some e0 := by
  cases cl with
  | none => exact ⟨by simp [aexit, tryBody], by simp [aexit, tryBody, outerHandle, finallyClose, observed]⟩
  | some e3 =>
    have he3 : e3.isException = true := hcl e3 rfl
    exact ⟨by simp [aexit, tryBody],
      by simp [aexit, tryBody, outerHandle, finallyClose, observed, he3]⟩

/-- Claim C3, witness: with a clean rollback and close, the upstream
`dbError 0` is observed unchanged. -/
theorem C3_upstream_error_passthrough_witness :
    (aexit (.active ⟨none, none, none⟩) (some (dbError 0))).rollbackCalls = 1 ∧
      observed (some (dbError 0))
        (aexit (.active ⟨none, none, none⟩) (some (dbError 0))) = some (dbError 0) :=
  C3_upstream_error_passthrough (dbError 0) none none
    (fun _ he3 => Option.noConfusion he3)

/-- Claim C4, counterexample: commit fails with `dbError 2` and the
rollback issued in response fails with `dbError 3`; the rollback error
replaces the commit error inside the handler, so the caller observes
`dbError 3`, not the commit failure. -/
theorem C4_counterexample :
    observed none (aexit (.active ⟨some (dbError 3), some (dbError 2), none⟩) none) =
      some (dbError 3) ∧ dbError 3 ≠ dbError 2 := by
  decide

/-- Claim C4 (amended): on exit with no upstream error, if the commit
fails with an ordinary `Exception` (not cancellation-class and not one
whose class string matches the cancellation name check), the transaction
is rolled back and — provided that rollback succeeds and any close
failure is an ordinary `Exception` — the commit failure itself is what
the caller observes. -/
theorem C4_commit_failure_surfaced (e : Exc) (cl : Option Exc)
    (hex : e.isException = true) (hcn : e.cancelNamed = false)
    (hcl : ∀ e3, cl = some e3 → e3.isException = true) :
    (aexit (.active ⟨none, some e, cl⟩) none).rollbackCalls = 1 ∧
      observed none (aexit (.active ⟨none, some e, cl⟩) none) = some e := by
  cases cl with
  | none =>
    exact ⟨by simp [aexit, tryBody, hex],
      by simp [aexit, tryBody, outerHandle, finallyClose, observed, hex, hcn]⟩
  | some e3 =>
    have he3 : e3.isException = true := hcl e3 rfl
    exact ⟨by simp [aexit, tryBody, hex],
      by simp [aexit, tryBody, outerHandle, finallyClose, observed, hex, hcn, he3]⟩

/-- Claim C4, witness: a commit failing with `dbError 2`, clean rollback
and close: the caller observes `dbError 2`. -/
theorem C4_commit_failure_surfaced_witness :
    (aexit (.active ⟨none, some (dbError 2), none⟩) none).rollbackCalls = 1 ∧
      observed none (aexit (.active ⟨none, some (dbError 2), none⟩) none) =
        some (dbError 2) :=
  C4_commit_failure_surfaced (dbError 2) none rfl rfl
    (fun _ he3 => Option.noConfusion he3)

/-- Claim C5, counterexample: after a successful commit, a close failure
that is the cancellation signal (a `BaseException`, uncaught by the
`except Exception` around `close()`) propagates out of exit, so the
caller does not observe success. -/
theorem C5_counterexample :
    observed none (aexit (.active ⟨none, none, some cancelledError⟩) none) =
      some cancelledError ∧ some cancelledError ≠ (none : Option Exc) := by
  decide

/-- Claim C5 (amended): a close failure that is an ordinary `Exception`
is never raised: the exception propagating out of exit is exactly what it
would have been had close succeeded, and in particular after a successful
commit with no upstream error the caller observes success. -/
theorem C5_close_exception_invisible (excIn r c : Option Exc) (e3 : Exc)
    (he3 : e3.isException = true) :
    (aexit (.active ⟨r, c, some e3⟩) excIn).raised =
      (aexit (.active ⟨r, c, none⟩) excIn).raised ∧
    (c = none → excIn = none →
      (aexit (.active ⟨r, c, some e3⟩) excIn).raised = none) := by
  constructor
  · rw [aexit_raised, aexit_raised]
    have ht : tryBody excIn ⟨r, c, some e3⟩ = tryBody excIn ⟨r, c, none⟩ := rfl
    rw [ht]
    simp [finallyClose, he3]
  · intro hc hin
    subst hc; subst hin
    simp [aexit, tryBody, outerHandle, finallyClose, he3]

/-- Claim C5, witness: commit succeeds, close fails with `dbError 4`; the
raised outcome matches the clean-close run and the caller observes
success. -/
theorem C5_close_exception_invisible_witness :
    (aexit (.active ⟨none, none, some (dbError 4)⟩) none).raised =
      (aexit (.active ⟨none, none, none⟩) none).raised ∧
    (aexit (.active ⟨none, none, some (dbError 4)⟩) none).raised = none :=
  ⟨(C5_close_exception_invisible none none none (dbError 4) rfl).1,
   (C5_close_exception_invisible none none none (dbError 4) rfl).2 rfl rfl⟩

/-- Claim C6: if any operation executed during the exit of an active unit
of work (rollback, commit, or close) fails with a cancellation-class
failure — a `BaseException` that no `except Exception` clause in the exit
algorithm can catch — then the exception propagating out of exit is such
a cancellation-class failure: cancellation is never swallowed. -/
theorem C6_cancellation_propagates (excIn : Option Exc) (s : Session)
    (h : cancellationEncountered excIn s = true) :
    ∃ ec, (aexit (.active s) excIn).raised = some ec ∧ ec.isException = false := by
  rw [aexit_raised]
  obtain ⟨r, c, cl⟩ := s
  cases cl with
  | none =>
    have hb : bodyCancelled excIn ⟨r, c, none⟩ = true := by
      simpa [cancellationEncountered, closeCancelled] using h
    obtain ⟨ec, h1, h2⟩ := bodyCancelled_outerHandle excIn ⟨r, c, none⟩ hb
    exact ⟨ec, by simp [finallyClose, h1], h2⟩
  | some e3 =>
    cases he3 : e3.isException with
    | false => exact ⟨e3, by simp [finallyClose, he3], he3⟩
    | true =>
      have hb : bodyCancelled excIn ⟨r, c, some e3⟩ = true := by
        simpa [cancellationEncountered, closeCancelled, Exc.isBaseOnly, he3] using h
      obtain ⟨ec, h1, h2⟩ := bodyCancelled_outerHandle excIn ⟨r, c, some e3⟩ hb
      exact ⟨ec, by simp [finallyClose, he3, h1], h2⟩

/-- Claim C6, witness: the commit is cancelled; a cancellation-class
failure propagates out of exit. -/
theorem C6_cancellation_propagates_witness :
    cancellationEncountered none ⟨none, some cancelledError, none⟩ = true ∧
    ∃ ec, (aexit (.active ⟨none, some cancelledError, none⟩) none).raised = some ec ∧
      ec.isException = false :=
  ⟨by decide,
   C6_cancellation_propagates none ⟨none, some cancelledError, none⟩ (by decide)⟩

/-- Claim C9: invoking exit on an instance whose scope entry never ran
raises `AttributeError` (reading the never-written private session
attribute), contradicting the claim that exit does nothing and raises no
error; the truthiness guard only protects the (never produced) case of a
falsy session attribute, where exit indeed performs no operation and
raises nothing. -/
theorem C9_exit_before_enter_raises :
    aexit .unset none = ⟨0, 0, false, 0, some attributeError⟩ ∧
    aexit .nullSession none = ⟨0, 0, false, 0, none⟩ := by
  decide

/-- Claim C10, counterexample: upstream error `dbError 0`, the rollback
fails with `dbError 1`, and close then fails with the cancellation
signal; the close failure replaces the rollback error as the exception
leaving exit, so the rollback error is not what the caller observes. -/
theorem C10_counterexample :
    (aexit (.active ⟨some (dbError 1), none, some cancelledError⟩)
        (some (dbError 0))).raised = some cancelledError ∧
      cancelledError ≠ dbError 1 := by
  decide

/-- Claim C10 (amended): when the rollback issued on the upstream-error
path or on the commit-failure path fails with a non-cancellation
`Exception`, that rollback error is re-raised out of exit — superseding
the upstream or commit error as the caller-observed error — and close is
still attempted; provided any close failure is itself an ordinary
`Exception`. -/
theorem C10_rollback_error_supersedes (excIn c cl : Option Exc) (e2 : Exc)
    (he2x : e2.isException = true) (he2c : e2.cancelNamed = false)
    (hpath : excIn ≠ none ∨ ∃ ec, c = some ec ∧ ec.isException = true)
    (hcl : ∀ e3, cl = some e3 → e3.isException = true) :
    (aexit (.active ⟨some e2, c, cl⟩) excIn).raised = some e2 ∧
      (aexit (.active ⟨some e2, c, cl⟩) excIn).closeCalls = 1 := by
  refine ⟨?_, aexit_closeCalls _ _⟩
  rw [aexit_raised]
  have hfin : ∀ x : Option Exc, finallyClose x ⟨some e2, c, cl⟩ = x := by
    intro x
    cases cl with
    | none => simp [finallyClose]
    | some e3 => simp [finallyClose, hcl e3 rfl]
  cases excIn with
  | some e0 => simp [tryBody, outerHandle, hfin, he2x, he2c]
  | none =>
    rcases hpath with hne | ⟨ec, hc, hec⟩
    · exact absurd rfl hne
    · subst hc
      simp [tryBody, outerHandle, hfin, he2x, he2c, hec]

/-- Claim C10, witness: upstream `dbError 0`, rollback fails with
`dbError 1`, clean close: the rollback error leaves exit and close was
attempted once. -/
theorem C10_rollback_error_supersedes_witness :
    (aexit (.active ⟨some (dbError 1), none, none⟩) (some (dbError 0))).raised =
        some (dbError 1) ∧
      (aexit (.active ⟨some (dbError 1), none, none⟩) (some (dbError 0))).closeCalls = 1 :=
  C10_rollback_error_supersedes (some (dbError 0)) none none (dbError 1) rfl rfl
    (Or.inl (by simp)) (fun _ he3 => Option.noConfusion he3)

end UowSpec

namespace AdapterSpec

/-- Claim C2: evaluation at the failing input. A `create_engine` call on a
fresh adapter whose liveness check fails raises the connectivity error but
leaves the engine handle set (the source assigns `self.__engine` before
the check and never clears it), and a second `create_engine` call is then
a no-op: it constructs nothing, runs no liveness check, and raises
nothing — contradicting the claim that no pool handle is retained and
that a subsequent call retries construction and the check. -/
theorem C2_failed_check_retains_engine :
    (create_engine false initState).raised = some .connectivity ∧
    (create_engine false initState).st.engine = some ⟨false⟩ ∧
    create_engine false (create_engine false initState).st =
      ⟨(create_engine false initState).st, none, false, false⟩ := by
  decide

/-- Claim C7, counterexample: after a single failed `create_engine` call
no successful create has ever occurred, yet `get_session` does not fail —
it returns a session bound to the retained, never-verified engine. The
claim's equivalence between "before a successful create()" and "no pool
handle present" does not hold on this code. -/
theorem C7_counterexample :
    (create_engine false initState).raised = some .connectivity ∧
    get_session (create_engine false initState).st = .ok ⟨false⟩ :=
  ⟨by decide, rfl⟩

/-- Claim C7 (amended): `get_session` fails with the not-initialized
error exactly when no engine handle is present (initially, and again
after `dispose_engine`), and otherwise returns a session bound to the
existing engine — regardless of whether any create call ever succeeded. -/
theorem C7_get_session_engine (st : AdapterState) :
    (st.engine = none → get_session st = .error .engineNotInitialized) ∧
    ∀ e, st.engine = some e → get_session st = .ok e := by
  obtain ⟨eng⟩ := st
  cases eng with
  | none =>
    exact ⟨fun _ => rfl, fun e he => by simp at he⟩
  | some e0 =>
    constructor
    · intro h; simp at h
    · intro e he
      simp at he
      subst he
      rfl

/-- Claim C7, witness: on the fresh adapter `get_session` fails with the
not-initialized error, and with a live engine it returns a session bound
to that engine. -/
theorem C7_get_session_engine_witness :
    get_session initState = .error .engineNotInitialized ∧
    get_session ⟨some ⟨true⟩⟩ = .ok ⟨true⟩ :=
  ⟨(C7_get_session_engine initState).1 rfl,
   (C7_get_session_engine ⟨some ⟨true⟩⟩).2 ⟨true⟩ rfl⟩

/-- Claim C8: evaluation at the failing input. With the database
unreachable on every attempt, the startup loop completes after a single
backoff: the first `create_engine` raises but retains the engine handle,
so the second call is a vacuous no-op that raises nothing and runs no
liveness check, the loop treats it as success, and `get_session` then
hands out sessions bound to an engine whose liveness check never
succeeded — contradicting the claim that startup does not complete until
a create attempt genuinely succeeds and yields a usable pool. -/
theorem C8_startup_completes_unverified :
    startup [false, false] initState = some (1, ⟨some ⟨false⟩⟩) ∧
    (create_engine false ⟨some ⟨false⟩⟩).checkRun = false ∧
    get_session ⟨some ⟨false⟩⟩ = .ok ⟨false⟩ :=
  ⟨by decide, by decide, rfl⟩

end AdapterSpec
